import Mathlib

/-!
# Verification of the memcached front-end core (kv_engine daemon)

A shallow embedding, in Lean 4, of the connection / cookie / state-machine
core of the kv_engine memcached daemon, together with theorems settling the
frozen specification claims.

Conventions used throughout:
* machine integers are modelled as `Nat` (widths are noted where they matter);
* fallible C++ code (`throw`) is modelled with `Option`;
* external state read by a function becomes explicit parameters, and the
  state written becomes explicit results;
* each definition is translated from the named source function; parts of the
  repository that are not available in the source tree are modelled from the
  specification text and carry a doc comment starting with
  `Modelled from the spec:`.
-/

/-- `cb::rbac::PrivilegeAccess` (rbac lib): result of a privilege check. -/
inductive PrivilegeAccess where
  | Ok
  | Fail
  | Stale
deriving DecidableEq, Repr, Fintype

/-- `ENGINE_ERROR_CODE`: the engine error codes enumerated by the `switch` in
`Connection::remapErrorCode` (src/daemon/connection.cc). -/
inductive EngineErr where
  | success
  | key_enoent
  | key_eexists
  | enomem
  | not_stored
  | einval
  | enotsup
  | ewouldblock
  | e2big
  | disconnect
  | not_my_vbucket
  | tmpfail
  | erange
  | rollback
  | ebusy
  | delta_badval
  | predicate_failed
  | failed
  | locked
  | locked_tmpfail
  | unknown_collection
  | collections_manifest_is_ahead
  | eaccess
  | no_bucket
  | auth_stale
  | durability_invalid_level
  | durability_impossible
  | sync_write_in_progress
  | sync_write_recommit_in_progress
  | sync_write_ambiguous
  | dcp_streamid_invalid
deriving DecidableEq, Repr, Fintype

/-- `cb::mcbp::Status` (subset of the response status codes used by the
claims under verification). -/
inductive Status where
  | Success
  | SubdocSuccessDeleted
  | SubdocMultiPathFailure
  | NotMyVbucket
  | Rollback
  | KeyEnoent
  | KeyEexists
  | Einval
  | UnknownCommand
  | Enomem
  | Etmpfail
  | Eaccess
  | AuthStale
deriving DecidableEq, Repr, Fintype

/-- `StateMachine::State` (src/unnamed/part_003, statemachine.h/cc). -/
inductive ConnectionState where
  | ssl_init
  | new_cmd
  | waiting
  | read_packet_header
  | parse_cmd
  | read_packet_body
  | closing
  | pending_close
  | immediate_close
  | destroyed
  | validate
  | execute
  | send_data
  | drain_send_buffer
  | ship_log
deriving DecidableEq, Repr, Fintype

namespace StateMachine

/-- `StateMachine::setCurrentState` (src/unnamed/part_003, lines 142-162).
Takes the connection's `isDCP()` flag, the current state and the requested
state, and returns the state the machine is left in.  Moving to the same
state returns early; for DCP connections a requested `waiting` state is
rewritten to `ship_log`. -/
def setCurrentState (isDCP : Bool) (currentState task : ConnectionState) :
    ConnectionState :=
  if task = currentState then
    currentState
  else if isDCP ∧ task = ConnectionState.waiting then
    ConnectionState.ship_log
  else
    task

/-- `StateMachine::isIdleState` (src/unnamed/part_003, lines 201-222). -/
def isIdleState : ConnectionState → Bool
  | ConnectionState.read_packet_header => true
  | ConnectionState.read_packet_body => true
  | ConnectionState.waiting => true
  | ConnectionState.new_cmd => true
  | ConnectionState.ship_log => true
  | ConnectionState.send_data => true
  | ConnectionState.pending_close => true
  | ConnectionState.drain_send_buffer => true
  | ConnectionState.ssl_init => true
  | ConnectionState.parse_cmd => false
  | ConnectionState.closing => false
  | ConnectionState.immediate_close => false
  | ConnectionState.destroyed => false
  | ConnectionState.validate => false
  | ConnectionState.execute => false

end StateMachine

namespace Cookie

/-- `Cookie::incrementRefcount` (src/daemon/cookie.h, lines 462-468).
The reference count is a `uint8_t`; incrementing at 255 throws
`std::logic_error` ("refcount will wrap"), modelled as `none`. -/
def incrementRefcount (refcount : Nat) : Option Nat :=
  if refcount = 255 then none else some (refcount + 1)

/-- `Cookie::decrementRefcount` (src/daemon/cookie.h, lines 469-475).
Decrementing at 0 throws `std::logic_error`, modelled as `none`. -/
def decrementRefcount (refcount : Nat) : Option Nat :=
  if refcount = 0 then none else some (refcount - 1)

end Cookie

namespace Connection

/-- `Connection::remapErrorCode` (src/daemon/connection.cc, lines 347-410).
`xerror_support` and `isCollectionsSupported()` are the connection's HELO
feature flags.  With `xerror_support` the code is returned unchanged.
Otherwise the whitelisted codes are returned unchanged, `LOCKED` becomes
`KEY_EEXISTS`, `LOCKED_TMPFAIL` becomes `TMPFAIL`, the two collection codes
become `EINVAL` unless collections were negotiated, the two sync-write
in-progress codes become `TMPFAIL`, and every remaining case falls through
to `ENGINE_DISCONNECT`. -/
def remapErrorCode (xerror_support collections : Bool) (code : EngineErr) :
    EngineErr :=
  if xerror_support then
    code
  else
    match code with
    | EngineErr.success => code
    | EngineErr.key_enoent => code
    | EngineErr.key_eexists => code
    | EngineErr.enomem => code
    | EngineErr.not_stored => code
    | EngineErr.einval => code
    | EngineErr.enotsup => code
    | EngineErr.ewouldblock => code
    | EngineErr.e2big => code
    | EngineErr.disconnect => code
    | EngineErr.not_my_vbucket => code
    | EngineErr.tmpfail => code
    | EngineErr.erange => code
    | EngineErr.rollback => code
    | EngineErr.ebusy => code
    | EngineErr.delta_badval => code
    | EngineErr.predicate_failed => code
    | EngineErr.failed => code
    | EngineErr.locked => EngineErr.key_eexists
    | EngineErr.locked_tmpfail => EngineErr.tmpfail
    | EngineErr.unknown_collection =>
        if collections then code else EngineErr.einval
    | EngineErr.collections_manifest_is_ahead =>
        if collections then code else EngineErr.einval
    | EngineErr.sync_write_in_progress => EngineErr.tmpfail
    | EngineErr.sync_write_recommit_in_progress => EngineErr.tmpfail
    | EngineErr.eaccess => EngineErr.disconnect
    | EngineErr.no_bucket => EngineErr.disconnect
    | EngineErr.auth_stale => EngineErr.disconnect
    | EngineErr.durability_invalid_level => EngineErr.disconnect
    | EngineErr.durability_impossible => EngineErr.disconnect
    | EngineErr.sync_write_ambiguous => EngineErr.disconnect
    | EngineErr.dcp_streamid_invalid => EngineErr.disconnect

/-- `Connection::signalIfIdle` (src/daemon/connection.cc, lines 1136-1150).
The cookies are reduced to their `isEwouldblock()` flags.  The result is
`(pushed, returnValue)`: `pushed` records whether the connection was pushed
onto the worker thread's notification list (and the thread notified). -/
def signalIfIdle (cookieBlocked : List Bool) (state : ConnectionState) :
    Bool × Bool :=
  if cookieBlocked.any (fun b => b) then
    (false, false)
  else if StateMachine.isIdleState state then
    (true, true)
  else
    (false, false)

/-- Result of the `while` loop in `Connection::checkPrivilege`:
either the loop left normally with the last `privilegeContext.check` result
and the number of rebuilds performed, or a `cb::rbac::Exception` was thrown
while rebuilding and the function returned `Fail` early. -/
inductive PrivCheckLoopResult where
  | normal (ret : PrivilegeAccess) (retries : Nat)
  | excFail (retries : Nat)
deriving DecidableEq, Repr

/-- Number of privilege-context rebuilds performed by the loop. -/
def PrivCheckLoopResult.rebuilds : PrivCheckLoopResult → Nat
  | PrivCheckLoopResult.normal _ r => r
  | PrivCheckLoopResult.excFail r => r

/-- The `while` loop of `Connection::checkPrivilege`
(src/daemon/connection.cc, lines 226-276).
`check i` is the result of `privilegeContext.check(privilege)` on the
context obtained after `i` rebuilds (the rebuild replaces the per-connection
snapshot, including the `NoSuchBucketException` path which installs a
no-access context).  `exc i` is true iff the `i`-th rebuild throws
`cb::rbac::Exception`, which makes the function return `Fail` at once.
`max_retries` is the constant 100 from the source. -/
def checkPrivilegeLoop (check : Nat → PrivilegeAccess) (exc : Nat → Bool)
    (retries : Nat) : PrivCheckLoopResult :=
  if h : check retries = PrivilegeAccess.Stale ∧ retries < 100 then
    if exc (retries + 1) then
      PrivCheckLoopResult.excFail (retries + 1)
    else
      checkPrivilegeLoop check exc (retries + 1)
  else
    PrivCheckLoopResult.normal (check retries) retries
termination_by 100 - retries
decreasing_by
  simp_wf
  omega

/-- `Connection::checkPrivilege` (src/daemon/connection.cc, lines 223-337).
Returns the access decision surfaced to the caller together with the number
of rebuilds performed.  After the loop, a `Fail` result is turned into `Ok`
when privilege-debug mode is enabled (the audit/log side effects are not
modelled); a `Fail` from the exception path returns directly. -/
def checkPrivilege (check : Nat → PrivilegeAccess) (exc : Nat → Bool)
    (privilegeDebug : Bool) : PrivilegeAccess × Nat :=
  match checkPrivilegeLoop check exc 0 with
  | PrivCheckLoopResult.excFail r => (PrivilegeAccess.Fail, r)
  | PrivCheckLoopResult.normal ret r =>
      (if ret = PrivilegeAccess.Fail ∧ privilegeDebug then
        PrivilegeAccess.Ok
      else ret, r)

end Connection

/-- The send-queue watchdog tuple `Connection::SendQueueInfo`
(`lastKnownSendBufferSize`, timestamp of last change, termination flag).
Timestamps are `steady_clock` instants in nanoseconds. -/
structure SendQueueInfo where
  size : Nat
  last : Int
  term : Bool
deriving DecidableEq, Repr

namespace Connection

/-- The stall limit chosen in `Connection::runStateMachinery`
(src/daemon/connection.cc, lines 840-842): 29 seconds when the bucket is
`Ready`, 1 second otherwise, in nanoseconds. -/
def stuckLimitNs (bucketReady : Bool) : Int :=
  if bucketReady then 29 * 1000000000 else 1 * 1000000000

/-- The stuck-client watchdog at the top of `Connection::runStateMachinery`
(src/daemon/connection.cc, lines 829-858).  Inputs are the bucket state, the
current time, the recorded watchdog tuple, the current send-buffer size and
the current state-machine state; outputs are the updated tuple and state.
The subsequent state-machine driving loop is not part of this prologue. -/
def runStateMachineryWatchdog (isDCP bucketReady : Bool) (now : Int)
    (info : SendQueueInfo) (currentSendBufferSize : Nat)
    (state : ConnectionState) : SendQueueInfo × ConnectionState :=
  if currentSendBufferSize = 0 then
    ({ info with size := currentSendBufferSize }, state)
  else if info.size ≠ currentSendBufferSize then
    ({ info with size := currentSendBufferSize, last := now }, state)
  else if now - info.last > stuckLimitNs bucketReady then
    ({ info with term := true },
     StateMachine.setCurrentState isDCP state ConnectionState.closing)
  else
    (info, state)

/-- `Connection::havePendingData` (src/daemon/connection.cc, lines
1200-1206): once the termination flag is set the connection reports no
pending data regardless of the send-queue size. -/
def havePendingData (info : SendQueueInfo) (sendQueueSize : Nat) : Bool :=
  if info.term then false else sendQueueSize ≠ 0

end Connection

/-- The datatype bit set of a payload
(`raw(0) | json(1) | snappy(2) | xattr(4)`, spec section 6). -/
structure DatatypeBits where
  json : Bool
  snappy : Bool
  xattr : Bool
deriving DecidableEq, Repr

/-- `PROTOCOL_BINARY_RAW_BYTES`. -/
def DatatypeBits.raw : DatatypeBits := ⟨false, false, false⟩

/-- `PROTOCOL_BINARY_DATATYPE_JSON`. -/
def DatatypeBits.jsonOnly : DatatypeBits := ⟨true, false, false⟩

/-- The response assembled into the cookie's dynamic buffer by
`mcbp_response_handler` (the header magic/opcode taken from the request are
fixed and omitted; the key/extras/body lengths of the header are the lengths
of the fields below). -/
structure AssembledResponse where
  status : Status
  key : List Nat
  ext : List Nat
  payload : List Nat
  datatype : DatatypeBits
  cas : Nat
deriving DecidableEq, Repr

/-- `mcbp_response_handler` (src/daemon/mcbp.cc, lines 248-353).

External collaborators become parameters:
* `inflate` models `cb::compression::inflate` (platform library, not in this
  tree); `none` is an inflate failure, upon which the handler returns false
  (modelled `none`);
* `getBody` models `cb::xattr::get_body`;
* `enabledDatatypes` models `Connection::getEnabledDatatypes` (masking the
  datatype bits by the negotiated features);
* `growOk` models the `DynamicBuffer::grow` allocation result;
* `errorJson` is `cookie.getErrorJson()`: per its contract in
  src/daemon/cookie.h it is the error object to return to the client and is
  empty iff no error context / event id / extra json was set.

The switch keeps the payload for
`{Success, SubdocSuccessDeleted, SubdocMultiPathFailure, NotMyVbucket,
Rollback}` and otherwise replaces it by the error object, zeroes the key and
extras lengths and sets the datatype to JSON (raw when the object is
empty). -/
def mcbp_response_handler (snappyEnabled : Bool)
    (inflate : List Nat → Option (List Nat))
    (getBody : List Nat → List Nat)
    (enabledDatatypes : DatatypeBits → DatatypeBits)
    (growOk : Bool) (errorJson : List Nat)
    (key ext body : List Nat) (datatype : DatatypeBits)
    (status : Status) (cas : Nat) : Option AssembledResponse :=
  let step1 : Option (List Nat × DatatypeBits) :=
    if ¬snappyEnabled ∧ datatype.snappy then
      match inflate body with
      | none => none
      | some inflated => some (inflated, { datatype with snappy := false })
    else
      some (body, datatype)
  match step1 with
  | none => none
  | some (payload0, dt0) =>
    let pd : List Nat × DatatypeBits :=
      if dt0.xattr then (getBody payload0, { dt0 with xattr := false })
      else (payload0, dt0)
    let dt1 := enabledDatatypes pd.2
    let final : AssembledResponse :=
      if status = Status.Success ∨ status = Status.SubdocSuccessDeleted ∨
          status = Status.SubdocMultiPathFailure ∨
          status = Status.NotMyVbucket ∨ status = Status.Rollback then
        { status := status, key := key, ext := ext, payload := pd.1,
          datatype := dt1, cas := cas }
      else
        { status := status, key := [], ext := [], payload := errorJson,
          datatype := if errorJson.isEmpty then DatatypeBits.raw
            else DatatypeBits.jsonOnly,
          cas := cas }
    if growOk then some final else none

namespace StateMachine

/-- The cookie/connection effects observed by `conn_validate`: the
state-machine state, the `writeAndGo` state, and the response status queued
for the client (if any). -/
structure ValidateEffect where
  state : ConnectionState
  writeAndGo : ConnectionState
  response : Option Status
deriving DecidableEq, Repr

/-- Modelled from the spec: `Cookie::sendResponse(Status)` (cookie.cc is not
part of this tree).  Per the response-assembly contract of section 4.2 and
the in-source comment in `conn_validate` ("sendResponse sets the write and
go to continue execute the next command"), queueing an error response moves
the state machine to `send_data` with `writeAndGo = new_cmd`. -/
def sendResponseStatus (isDCP : Bool) (c : ValidateEffect) (st : Status) :
    ValidateEffect :=
  { state := setCurrentState isDCP c.state ConnectionState.send_data,
    writeAndGo := ConnectionState.new_cmd,
    response := some st }

/-- `StateMachine::conn_validate` (src/unnamed/part_003, lines 453-507).

Inputs derived from the connection and the parsed header:
`bucketDying` is `is_bucket_dying`; `isRequest` is `header.isRequest()`;
`clientMagic` is `cb::mcbp::is_client_magic(request.getMagic())`;
`opcodeValid` is `cb::mcbp::is_valid_opcode(opcode)`; `validatorResult` is
the status returned by `McbpValidator::validate` (the frame-info checks and
the opcode-specific validator; mcbp_validators.cc is not part of this tree,
so its result is an input).  On a validator failure the source sends the
response and then overrides the write-and-go with `closing`. -/
def conn_validate (isDCP bucketDying : Bool) (c : ValidateEffect)
    (isRequest clientMagic opcodeValid : Bool) (validatorResult : Status) :
    ValidateEffect :=
  if bucketDying then c
  else if isRequest then
    if clientMagic then
      if ¬opcodeValid then
        sendResponseStatus isDCP c Status.UnknownCommand
      else if validatorResult ≠ Status.Success then
        let c1 := sendResponseStatus isDCP c validatorResult
        { c1 with writeAndGo := ConnectionState.closing }
      else
        { c with
            state := setCurrentState isDCP c.state ConnectionState.execute }
    else
      { c with
          state := setCurrentState isDCP c.state ConnectionState.closing }
  else
    { c with
        state := setCurrentState isDCP c.state ConnectionState.execute }

end StateMachine

/-- `cb::mcbp::Magic` (the two request magics used by the CDC producers):
client-request 0x80, alt-client-request 0x08 (spec section 6). -/
inductive Magic where
  | ClientRequest
  | AltClientRequest
deriving DecidableEq, Repr

/-- Big-endian byte serialisations used on the wire. -/
def u16be (v : Nat) : List Nat := [v / 256 % 256, v % 256]

/-- Big-endian 32-bit serialisation. -/
def u32be (v : Nat) : List Nat :=
  [v / 16777216 % 256, v / 65536 % 256, v / 256 % 256, v % 256]

/-- Big-endian 64-bit serialisation. -/
def u64be (v : Nat) : List Nat := u32be (v / 4294967296) ++ u32be (v % 4294967296)

/-- `cb::mcbp::request::DcpMutationPayload`: the 31-byte extras of a DCP
mutation (by-seqno u64, rev-seqno u64, flags u32, expiration u32, lock-time
u32, meta-len u16, nru u8; spec section 4.9). -/
structure DcpMutationPayload where
  by_seqno : Nat
  rev_seqno : Nat
  flags : Nat
  expiration : Nat
  lock_time : Nat
  nmeta : Nat
  nru : Nat
deriving DecidableEq, Repr

/-- Wire encoding of the mutation extras (network byte order). -/
def DcpMutationPayload.encode (p : DcpMutationPayload) : List Nat :=
  u64be p.by_seqno ++ u64be p.rev_seqno ++ u32be p.flags ++
    u32be p.expiration ++ u32be p.lock_time ++ u16be p.nmeta ++ [p.nru % 256]

/-- Modelled from the spec: `cb::mcbp::DcpStreamIdFrameInfo` (its header is
not part of this tree).  A frame-info item whose first byte packs the id
nibble (DcpStreamId = 2) and the length nibble (2), followed by the 2-byte
stream id in network order — `(id=DcpStreamId, payload=0x0007)` for stream
id 7.  The layout agrees with `encodeFrameInfo` in the in-tree validator
tests (src/protocol/mcbp/opcode.cc). -/
def dcpStreamIdFrameInfoBytes (sid : Nat) : List Nat := 34 :: u16be sid

/-- The 24-byte header built by `Connection::mutation` (fields that the
function sets; the opcode is fixed to DcpMutation). -/
structure DcpMutationHeader where
  magic : Magic
  framingExtraslen : Nat
  extlen : Nat
  keylen : Nat
  bodylen : Nat
  vbucket : Nat
  cas : Nat
  datatype : Nat
deriving DecidableEq, Repr

/-- One append to the connection's output stream.  `copied` models
`copyToOutputStream` (the bytes are copied into the send buffer); `chained`
models `chainDataToOutputStream` of an `ItemSendBuffer`: a zero-copy view
into the engine item whose ownership transfers to the send buffer, the item
being released when transmission completes (src/unnamed/part_003,
SendBuffer / ItemSendBuffer). -/
inductive OutChunk where
  | header (h : DcpMutationHeader)
  | copied (bytes : List Nat)
  | chained (bytes : List Nat)
deriving DecidableEq, Repr

/-- The `try` block of `Connection::mutation`: each append can throw
`std::bad_alloc`; `budget` is the number of appends that succeed before
allocation fails.  Returns the chunks actually placed in the output buffer
(a partial message stays in the buffer on failure) and whether every append
succeeded. -/
def appendChunks : Nat → List OutChunk → List OutChunk × Bool
  | _, [] => ([], true)
  | 0, _ :: _ => ([], false)
  | Nat.succ b, chunk :: rest =>
      let r := appendChunks b rest
      (chunk :: r.1, r.2)

namespace Connection

/-- `Connection::mutation` (src/daemon/connection.cc, lines 1477-1560), the
DCP mutation producer.  `infoOk` is the result of `bucket_get_item_info`
(false returns `ENGINE_FAILED` with nothing queued); `stripCID` models
`DocKey::makeDocKeyWithoutCollectionID` applied when the client did not
negotiate collections; `key`, `value` (the item's value iovec) and `meta`
are byte strings; `sid` is the (16-bit) DCP stream id, 0 meaning none.  The
result is the engine return code and the output-stream appends made. -/
def mutation (collectionsSupported infoOk : Bool)
    (stripCID : List Nat → List Nat)
    (key value meta : List Nat)
    (by_seqno rev_seqno flags expiration lock_time nru : Nat)
    (vbucket cas datatype : Nat) (sid : Nat) (budget : Nat) :
    EngineErr × List OutChunk :=
  if ¬infoOk then
    (EngineErr.failed, [])
  else
    let key := if collectionsSupported then key else stripCID key
    let extras : DcpMutationPayload :=
      ⟨by_seqno, rev_seqno, flags, expiration, lock_time, meta.length, nru⟩
    let hdr : DcpMutationHeader :=
      { magic := if sid ≠ 0 then Magic.AltClientRequest
          else Magic.ClientRequest,
        framingExtraslen := if sid ≠ 0 then 3 else 0,
        extlen := 31,
        keylen := key.length,
        bodylen := 31 + key.length + meta.length + value.length +
          (if sid ≠ 0 then 3 else 0),
        vbucket := vbucket,
        cas := cas,
        datatype := datatype }
    let chunks : List OutChunk :=
      [OutChunk.header hdr] ++
      (if sid ≠ 0 then [OutChunk.copied (dcpStreamIdFrameInfoBytes sid)]
        else []) ++
      [OutChunk.copied (DcpMutationPayload.encode extras),
       OutChunk.copied key] ++
      (if value ≠ [] then [OutChunk.chained value] else []) ++
      [OutChunk.copied meta]
    let r := appendChunks budget chunks
    (if r.2 then EngineErr.success else EngineErr.disconnect, r.1)

end Connection

/-- Result of one attempt of the `subdoc_executor` retry loop, abstracting
the engine and the subdoc operation (`attempt` numbering starts at 1):
context allocation failure (`subdoc_create_context` returned null), an
abort from `subdoc_fetch` or `subdoc_operate` (e.g. EWOULDBLOCK or an error
already sent), or a `subdoc_update` engine result. -/
inductive AttemptStep where
  | ctxAllocFail
  | fetchAbort
  | operateAbort
  | update (ret : EngineErr)
deriving DecidableEq, Repr

/-- Observable outcome of `subdoc_executor`: a response sent with an error
status via `cookie.sendResponse`, a success response built by
`subdoc_response`, or a plain return (suspension / error handled inside the
helpers), each tagged with the number of attempts made. -/
inductive SubdocOutcome where
  | sent (st : Status) (attempts : Nat)
  | responded (attempts : Nat)
  | returned (attempts : Nat)
deriving DecidableEq, Repr

/-- Attempt count of a `subdoc_executor` outcome. -/
def SubdocOutcome.attempts : SubdocOutcome → Nat
  | SubdocOutcome.sent _ a => a
  | SubdocOutcome.responded a => a
  | SubdocOutcome.returned a => a

/-- The `do { ... } while (auto_retry && attempts < MAXIMUM_ATTEMPTS)` loop
of `subdoc_executor` (src/daemon/subdocument.cc, lines 326-454), with
`MAXIMUM_ATTEMPTS = 100`.  On `ENGINE_KEY_EEXISTS` from `subdoc_update`:
with `auto_retry` the command context is reset and the loop continues
(subject to the attempt bound), otherwise the status is returned to the
client without retry; hitting the bound sends `Etmpfail`. -/
def subdoc_executor_loop (auto_retry : Bool) (step : Nat → AttemptStep)
    (attempts : Nat) : SubdocOutcome :=
  let a := attempts + 1
  match step a with
  | AttemptStep.ctxAllocFail => SubdocOutcome.sent Status.Enomem a
  | AttemptStep.fetchAbort => SubdocOutcome.returned a
  | AttemptStep.operateAbort => SubdocOutcome.returned a
  | AttemptStep.update ret =>
    if ret = EngineErr.key_eexists then
      if auto_retry then
        if _h : a < 100 then
          subdoc_executor_loop auto_retry step a
        else
          SubdocOutcome.sent Status.Etmpfail a
      else
        SubdocOutcome.sent Status.KeyEexists a
    else if ret = EngineErr.success then
      SubdocOutcome.responded a
    else
      SubdocOutcome.returned a
termination_by 100 - attempts
decreasing_by
  simp_wf
  omega

/-- `subdoc_executor` entry: `auto_retry` is `(cas == 0)` — the client
supplied no CAS, so a concurrent-update CAS mismatch is auto-retried. -/
def subdoc_executor (cas : Nat) (step : Nat → AttemptStep) : SubdocOutcome :=
  subdoc_executor_loop (cas == 0) step 0

/-- Modelled from the spec: the retry behaviour of
`AppendPrependCommandContext` (its `step()` implementation is not part of
this tree).  The class comment (appendprepend_context.h, lines 25-32) says a
CAS store returning `EEXISTS` because of a concurrent update is simply
retried (through the `Reset` state which releases the per-attempt
resources), and section 4.8 of the spec bounds the auto-retry of
compare-and-set mutation contexts at 100 attempts, surfacing `TempFail`
beyond that; the retry applies when the client supplied no CAS.  `store i`
is the engine result of the i-th store attempt; the result carries the code
surfaced and the number of attempts. -/
def appendPrependRetryLoop (retryable : Bool) (store : Nat → EngineErr)
    (attempts : Nat) : EngineErr × Nat :=
  let a := attempts + 1
  if store a = EngineErr.key_eexists ∧ retryable then
    if _h : a < 100 then
      appendPrependRetryLoop retryable store a
    else
      (EngineErr.tmpfail, a)
  else
    (store a, a)
termination_by 100 - attempts
decreasing_by
  simp_wf
  omega

/-- Modelled from the spec: `AppendPrependCommandContext` driven to
completion for a client CAS `cas` (retryable iff `cas == 0`). -/
def appendPrependRetry (cas : Nat) (store : Nat → EngineErr) :
    EngineErr × Nat :=
  appendPrependRetryLoop (cas == 0) store 0

/-! ## Claim theorems -/

/-- Helper: the rebuild counter of the `checkPrivilege` loop never exceeds
100 (the source constant `max_retries`), provided it starts at or below 100.
Induction on the remaining budget `k ≥ 100 - retries`. -/
theorem checkPrivilegeLoop_rebuilds_le (check : Nat → PrivilegeAccess)
    (exc : Nat → Bool) :
    ∀ k retries, retries ≤ 100 → 100 - retries ≤ k →
      (Connection.checkPrivilegeLoop check exc retries).rebuilds ≤ 100 := by
  intro k
  induction k with
  | zero =>
    intro retries h hk
    have h100 : retries = 100 := by omega
    subst h100
    rw [Connection.checkPrivilegeLoop]
    rw [dif_neg (fun hc => absurd hc.2 (by omega))]
    simp [Connection.PrivCheckLoopResult.rebuilds]
  | succ k ih =>
    intro retries h hk
    rw [Connection.checkPrivilegeLoop]
    by_cases hc : check retries = PrivilegeAccess.Stale ∧ retries < 100
    · rw [dif_pos hc]
      by_cases he : exc (retries + 1) = true
      · rw [if_pos he]
        simp only [Connection.PrivCheckLoopResult.rebuilds]
        omega
      · rw [if_neg he]
        exact ih (retries + 1) (by omega) (by omega)
    · rw [dif_neg hc]
      simpa [Connection.PrivCheckLoopResult.rebuilds] using h

/-- Helper: the loop performs at least as many rebuilds as it started with. -/
theorem checkPrivilegeLoop_rebuilds_ge (check : Nat → PrivilegeAccess)
    (exc : Nat → Bool) :
    ∀ k retries, 100 - retries ≤ k →
      retries ≤ (Connection.checkPrivilegeLoop check exc retries).rebuilds := by
  intro k
  induction k with
  | zero =>
    intro retries hk
    rw [Connection.checkPrivilegeLoop]
    rw [dif_neg (fun hc => absurd hc.2 (by omega))]
    simp [Connection.PrivCheckLoopResult.rebuilds]
  | succ k ih =>
    intro retries hk
    rw [Connection.checkPrivilegeLoop]
    by_cases hc : check retries = PrivilegeAccess.Stale ∧ retries < 100
    · rw [dif_pos hc]
      by_cases he : exc (retries + 1) = true
      · rw [if_pos he]
        simp only [Connection.PrivCheckLoopResult.rebuilds]
        omega
      · rw [if_neg he]
        have := ih (retries + 1) (by omega)
        omega
    · rw [dif_neg hc]
      simp [Connection.PrivCheckLoopResult.rebuilds]

/-- Helper: if every check up to the limit reports `Stale` and no rebuild
throws, the loop stops only at 100 rebuilds with the `Stale` surfaced. -/
theorem checkPrivilegeLoop_all_stale (check : Nat → PrivilegeAccess)
    (exc : Nat → Bool)
    (hstale : ∀ i, i ≤ 100 → check i = PrivilegeAccess.Stale)
    (hexc : ∀ i, exc i = false) :
    ∀ k retries, retries ≤ 100 → 100 - retries ≤ k →
      Connection.checkPrivilegeLoop check exc retries =
        Connection.PrivCheckLoopResult.normal PrivilegeAccess.Stale 100 := by
  intro k
  induction k with
  | zero =>
    intro retries h hk
    have h100 : retries = 100 := by omega
    subst h100
    rw [Connection.checkPrivilegeLoop]
    rw [dif_neg (fun hc => absurd hc.2 (by omega))]
    rw [hstale 100 (by omega)]
  | succ k ih =>
    intro retries h hk
    by_cases hlt : retries < 100
    · rw [Connection.checkPrivilegeLoop]
      rw [dif_pos ⟨hstale retries (by omega), hlt⟩]
      rw [if_neg (by simp [hexc])]
      exact ih (retries + 1) (by omega) (by omega)
    · have h100 : retries = 100 := by omega
      subst h100
      rw [Connection.checkPrivilegeLoop]
      rw [dif_neg (fun hc => absurd hc.2 (by omega))]
      rw [hstale 100 (by omega)]

/-- C1: for every privilege check, at most 100 privilege-context rebuilds are
made within a single request; a `Stale` first check triggers at least one
rebuild; and when the check keeps returning `Stale` after every rebuild the
stale state (not a further retry) is surfaced after exactly 100 rebuilds. -/
theorem C1_privilege_rebuild_bounded :
    ∀ (check : Nat → PrivilegeAccess) (exc : Nat → Bool)
      (privilegeDebug : Bool),
      ((Connection.checkPrivilege check exc privilegeDebug).2 ≤ 100) ∧
      (check 0 = PrivilegeAccess.Stale →
        1 ≤ (Connection.checkPrivilege check exc privilegeDebug).2) ∧
      ((∀ i, i ≤ 100 → check i = PrivilegeAccess.Stale) →
       (∀ i, exc i = false) →
        Connection.checkPrivilege check exc privilegeDebug =
          (PrivilegeAccess.Stale, 100)) := by
  intro check exc privilegeDebug
  refine ⟨?_, ?_, ?_⟩
  · have h := checkPrivilegeLoop_rebuilds_le check exc 100 0 (by omega)
      (by omega)
    unfold Connection.checkPrivilege
    cases hloop : Connection.checkPrivilegeLoop check exc 0 with
    | normal ret r =>
      rw [hloop] at h
      simpa [Connection.PrivCheckLoopResult.rebuilds] using h
    | excFail r =>
      rw [hloop] at h
      simpa [Connection.PrivCheckLoopResult.rebuilds] using h
  · intro hstale
    unfold Connection.checkPrivilege
    have hstep : Connection.checkPrivilegeLoop check exc 0 =
        if exc 1 then Connection.PrivCheckLoopResult.excFail 1
        else Connection.checkPrivilegeLoop check exc 1 := by
      rw [Connection.checkPrivilegeLoop]
      rw [dif_pos ⟨hstale, by omega⟩]
    have hge := checkPrivilegeLoop_rebuilds_ge check exc 100 1 (by omega)
    by_cases he : exc 1 = true
    · rw [hstep, if_pos he]
    · rw [hstep, if_neg he]
      cases hloop : Connection.checkPrivilegeLoop check exc 1 with
      | normal ret r =>
        rw [hloop] at hge
        simpa [Connection.PrivCheckLoopResult.rebuilds] using hge
      | excFail r =>
        rw [hloop] at hge
        simpa [Connection.PrivCheckLoopResult.rebuilds] using hge
  · intro hstale hexc
    unfold Connection.checkPrivilege
    rw [checkPrivilegeLoop_all_stale check exc hstale hexc 100 0 (by omega)
      (by omega)]
    simp

/-- C1 witness: a check that always reports `Stale` leads to exactly 100
rebuilds and the stale result surfaced. -/
theorem C1_privilege_rebuild_bounded_witness :
    ((fun _ : Nat => PrivilegeAccess.Stale) 0 = PrivilegeAccess.Stale) ∧
    Connection.checkPrivilege (fun _ => PrivilegeAccess.Stale)
      (fun _ => false) false = (PrivilegeAccess.Stale, 100) :=
  ⟨rfl,
   (C1_privilege_rebuild_bounded (fun _ => PrivilegeAccess.Stale)
      (fun _ => false) false).2.2 (fun _ _ => rfl) (fun _ => rfl)⟩

/-- Helper: setting the state to `closing` always lands in `closing`
(the DCP rewrite only affects `waiting`). -/
theorem setCurrentState_closing :
    ∀ (isDCP : Bool) (st : ConnectionState),
      StateMachine.setCurrentState isDCP st ConnectionState.closing =
        ConnectionState.closing := by
  decide

/-- C7: on each run of the state machinery, a non-empty send buffer whose
size is unchanged for longer than the grace window (29 s when the bucket is
Ready, 1 s otherwise) sets the termination flag and transitions the
connection to `closing`; once the flag is set, `havePendingData` reports no
pending data regardless of the send-buffer size. -/
theorem C7_send_queue_watchdog :
    (Connection.stuckLimitNs true = 29 * 1000000000 ∧
     Connection.stuckLimitNs false = 1 * 1000000000) ∧
    (∀ (isDCP bucketReady : Bool) (now : Int) (info : SendQueueInfo)
        (cur : Nat) (state : ConnectionState),
      cur ≠ 0 → info.size = cur →
      now - info.last > Connection.stuckLimitNs bucketReady →
      (Connection.runStateMachineryWatchdog isDCP bucketReady now info cur
          state).1.term = true ∧
      (Connection.runStateMachineryWatchdog isDCP bucketReady now info cur
          state).2 = ConnectionState.closing) ∧
    (∀ (info : SendQueueInfo) (sz : Nat), info.term = true →
      Connection.havePendingData info sz = false) := by
  refine ⟨⟨rfl, rfl⟩, ?_, ?_⟩
  · intro isDCP bucketReady now info cur state hcur hsize hstuck
    have hne : ¬info.size ≠ cur := by simp [hsize]
    simp only [Connection.runStateMachineryWatchdog, if_neg hcur,
      if_neg hne, if_pos hstuck]
    exact ⟨by simp, setCurrentState_closing isDCP state⟩
  · intro info sz hterm
    simp [Connection.havePendingData, hterm]

/-- C7 witness: a send buffer stuck at 8192 bytes for 30 s in a Ready bucket
is terminated, and the termination flag suppresses the pending-data check. -/
theorem C7_send_queue_watchdog_witness :
    ((8192 : Nat) ≠ 0) ∧
    ((30000000000 : Int) - 0 > Connection.stuckLimitNs true) ∧
    (Connection.runStateMachineryWatchdog false true 30000000000
        ⟨8192, 0, false⟩ 8192 ConnectionState.new_cmd).1.term = true ∧
    (Connection.runStateMachineryWatchdog false true 30000000000
        ⟨8192, 0, false⟩ 8192 ConnectionState.new_cmd).2 =
      ConnectionState.closing ∧
    Connection.havePendingData ⟨8192, 0, true⟩ 8192 = false := by
  have h := C7_send_queue_watchdog.2.1 false true 30000000000
    ⟨8192, 0, false⟩ 8192 ConnectionState.new_cmd (by decide) rfl
    (by decide)
  exact ⟨by decide, by decide, h.1, h.2,
    C7_send_queue_watchdog.2.2 ⟨8192, 0, true⟩ 8192 rfl⟩

/-- C8: For every duplex DCP connection whose state machine is not already in
the `waiting` state, any attempt to set the state to `waiting` instead sets it
to `ship_log`; hence `setCurrentState` never leaves such a connection in
`waiting`.  For non-DCP connections the requested state is taken unchanged. -/
theorem C8_dcp_waiting_rewritten_to_ship_log :
    (∀ cur : ConnectionState, cur ≠ ConnectionState.waiting →
      StateMachine.setCurrentState true cur ConnectionState.waiting =
        ConnectionState.ship_log) ∧
    (∀ cur task : ConnectionState, cur ≠ ConnectionState.waiting →
      StateMachine.setCurrentState true cur task ≠ ConnectionState.waiting) ∧
    (∀ cur task : ConnectionState,
      StateMachine.setCurrentState false cur task = task) := by
  refine ⟨by decide, by decide, by decide⟩

/-- C8 witness: concrete instance with the state machine in `execute`. -/
theorem C8_dcp_waiting_rewritten_to_ship_log_witness :
    ConnectionState.execute ≠ ConnectionState.waiting ∧
    StateMachine.setCurrentState true ConnectionState.execute
      ConnectionState.waiting = ConnectionState.ship_log :=
  ⟨by decide,
   C8_dcp_waiting_rewritten_to_ship_log.1 ConnectionState.execute (by decide)⟩

/-- C9: Cookie reference-count operations are fatal on wrap: incrementing at
255 and decrementing at 0 throw (modelled as `none`); otherwise they change
the count by exactly one. -/
theorem C9_refcount_wrap_fatal :
    Cookie.incrementRefcount 255 = none ∧
    Cookie.decrementRefcount 0 = none ∧
    (∀ r : Nat, r < 255 →
      Cookie.incrementRefcount r = some (r + 1)) ∧
    (∀ r : Nat, r ≤ 255 → r ≠ 0 →
      Cookie.decrementRefcount r = some (r - 1)) := by
  refine ⟨rfl, rfl, ?_, ?_⟩
  · intro r h
    have : r ≠ 255 := Nat.ne_of_lt h
    simp [Cookie.incrementRefcount, this]
  · intro r _ h
    simp [Cookie.decrementRefcount, h]

/-- C9 witness: concrete refcounts 3 (increment) and 3 (decrement). -/
theorem C9_refcount_wrap_fatal_witness :
    (3 : Nat) < 255 ∧ Cookie.incrementRefcount 3 = some 4 ∧
    Cookie.decrementRefcount 3 = some 2 :=
  ⟨by decide,
   C9_refcount_wrap_fatal.2.2.1 3 (by decide),
   C9_refcount_wrap_fatal.2.2.2 3 (by decide) (by decide)⟩

/-- C2: when xerror was negotiated `remapErrorCode` returns every code
unchanged; without xerror it maps `eaccess`, `auth_stale` and `no_bucket` to
`disconnect`, maps the two sync-write in-progress codes to `tmpfail`, maps
the two collection codes to `einval` unless collections were negotiated, and
leaves the benign/transient whitelisted codes unchanged. -/
theorem C2_remap_error_code :
    (∀ coll : Bool, ∀ c : EngineErr,
      Connection.remapErrorCode true coll c = c) ∧
    (∀ coll : Bool,
      Connection.remapErrorCode false coll EngineErr.eaccess =
        EngineErr.disconnect ∧
      Connection.remapErrorCode false coll EngineErr.auth_stale =
        EngineErr.disconnect ∧
      Connection.remapErrorCode false coll EngineErr.no_bucket =
        EngineErr.disconnect) ∧
    (∀ coll : Bool,
      Connection.remapErrorCode false coll EngineErr.sync_write_in_progress =
        EngineErr.tmpfail ∧
      Connection.remapErrorCode false coll
        EngineErr.sync_write_recommit_in_progress = EngineErr.tmpfail) ∧
    (Connection.remapErrorCode false false EngineErr.unknown_collection =
        EngineErr.einval ∧
     Connection.remapErrorCode false false
        EngineErr.collections_manifest_is_ahead = EngineErr.einval ∧
     Connection.remapErrorCode false true EngineErr.unknown_collection =
        EngineErr.unknown_collection ∧
     Connection.remapErrorCode false true
        EngineErr.collections_manifest_is_ahead =
        EngineErr.collections_manifest_is_ahead) ∧
    (∀ coll : Bool, ∀ c : EngineErr,
      (c = EngineErr.success ∨ c = EngineErr.key_enoent ∨
       c = EngineErr.key_eexists ∨ c = EngineErr.enomem ∨
       c = EngineErr.not_stored ∨ c = EngineErr.einval ∨
       c = EngineErr.enotsup ∨ c = EngineErr.ewouldblock ∨
       c = EngineErr.e2big ∨ c = EngineErr.disconnect ∨
       c = EngineErr.not_my_vbucket ∨ c = EngineErr.tmpfail ∨
       c = EngineErr.erange ∨ c = EngineErr.rollback ∨
       c = EngineErr.ebusy ∨ c = EngineErr.delta_badval ∨
       c = EngineErr.predicate_failed ∨ c = EngineErr.failed) →
      Connection.remapErrorCode false coll c = c) := by
  refine ⟨?_, ?_, ?_, ?_, ?_⟩
  · intro coll c
    simp [Connection.remapErrorCode]
  · intro coll
    refine ⟨rfl, rfl, rfl⟩
  · intro coll
    refine ⟨rfl, rfl⟩
  · refine ⟨rfl, rfl, rfl, rfl⟩
  · intro coll c h
    rcases h with h | h | h | h | h | h | h | h | h | h | h | h | h | h |
      h | h | h | h <;> subst h <;> rfl

/-- C2 witness: the whitelist clause at the concrete code `tmpfail`. -/
theorem C2_remap_error_code_witness :
    Connection.remapErrorCode false false EngineErr.tmpfail =
      EngineErr.tmpfail :=
  C2_remap_error_code.2.2.2.2 false EngineErr.tmpfail
    (by simp)

/-- C10: a connection with any cookie in the ewouldblock state is never
signalled as idle: `signalIfIdle` returns `false` without pushing the
connection onto the worker's notification list whenever at least one cookie
is blocked, and it pushes (and notifies) exactly when no cookie is blocked
and the state machine is in an idle state. -/
theorem C10_signal_if_idle_blocked :
    ∀ (cookieBlocked : List Bool) (state : ConnectionState),
      ((∃ b ∈ cookieBlocked, b = true) →
        Connection.signalIfIdle cookieBlocked state = (false, false)) ∧
      ((Connection.signalIfIdle cookieBlocked state).1 = true ↔
        ((∀ b ∈ cookieBlocked, b = false) ∧
          StateMachine.isIdleState state = true)) ∧
      ((Connection.signalIfIdle cookieBlocked state).2 =
        (Connection.signalIfIdle cookieBlocked state).1) := by
  intro cookieBlocked state
  cases hany : cookieBlocked.any (fun b => b) with
  | true =>
    refine ⟨fun _ => by simp [Connection.signalIfIdle, hany], ?_, ?_⟩
    · rcases List.any_eq_true.1 hany with ⟨b, hb, hb'⟩
      constructor
      · intro h
        simp [Connection.signalIfIdle, hany] at h
      · rintro ⟨hall, _⟩
        have hfalse := hall b hb
        simp only [hfalse] at hb'
        exact absurd hb' (by simp)
    · simp [Connection.signalIfIdle, hany]
  | false =>
    have hall : ∀ b ∈ cookieBlocked, b = false := by
      intro b hb
      cases b
      · rfl
      · have : cookieBlocked.any (fun b => b) = true :=
          List.any_eq_true.2 ⟨true, hb, rfl⟩
        rw [hany] at this
        exact absurd this (by simp)
    refine ⟨?_, ?_, ?_⟩
    · rintro ⟨b, hb, hb'⟩
      have := hall b hb
      rw [hb'] at this
      exact absurd this (by simp)
    · by_cases hidle : StateMachine.isIdleState state = true
      · have heq : Connection.signalIfIdle cookieBlocked state =
            (true, true) := by
          simp [Connection.signalIfIdle, hany, hidle]
        rw [heq]
        exact ⟨fun _ => ⟨hall, hidle⟩, fun _ => rfl⟩
      · simp only [Bool.not_eq_true] at hidle
        simp [Connection.signalIfIdle, hany, hidle]
    · by_cases hidle : StateMachine.isIdleState state = true
      · simp [Connection.signalIfIdle, hany, hidle]
      · simp only [Bool.not_eq_true] at hidle
        simp [Connection.signalIfIdle, hany, hidle]

/-- C10 witness: one blocked cookie in the idle state `waiting` suppresses
the idle signal. -/
theorem C10_signal_if_idle_blocked_witness :
    Connection.signalIfIdle [true] ConnectionState.waiting = (false, false) :=
  (C10_signal_if_idle_blocked [true] ConnectionState.waiting).1
    ⟨true, by simp, rfl⟩

/-- C3: in the response handler, for every status outside
{Success, SubdocSuccessDeleted, SubdocMultiPathFailure, Rollback,
NotMyVbucket} the value is replaced by the cookie's JSON error object (which
is non-empty exactly when an error context or event id was set), the key and
extras lengths become zero, and the datatype becomes JSON (raw when the
object is empty); for the five listed statuses the payload survives the
status switch unchanged (stated for payloads not subject to the snappy
inflation / xattr stripping preprocessing). -/
theorem C3_error_object_replacement :
    ∀ (snappyEnabled : Bool) (inflate : List Nat → Option (List Nat))
      (getBody : List Nat → List Nat)
      (enabledDatatypes : DatatypeBits → DatatypeBits)
      (errorJson key ext body : List Nat) (dt : DatatypeBits)
      (status : Status) (cas : Nat),
      ((status ≠ Status.Success ∧ status ≠ Status.SubdocSuccessDeleted ∧
        status ≠ Status.SubdocMultiPathFailure ∧
        status ≠ Status.NotMyVbucket ∧ status ≠ Status.Rollback) →
        ((¬snappyEnabled = true ∧ dt.snappy = true) →
          ∃ b, inflate body = some b) →
        mcbp_response_handler snappyEnabled inflate getBody enabledDatatypes
            true errorJson key ext body dt status cas =
          some { status := status, key := [], ext := [],
                 payload := errorJson,
                 datatype := if errorJson.isEmpty then DatatypeBits.raw
                   else DatatypeBits.jsonOnly,
                 cas := cas }) ∧
      ((status = Status.Success ∨ status = Status.SubdocSuccessDeleted ∨
        status = Status.SubdocMultiPathFailure ∨
        status = Status.NotMyVbucket ∨ status = Status.Rollback) →
        ¬(¬snappyEnabled = true ∧ dt.snappy = true) → dt.xattr = false →
        mcbp_response_handler snappyEnabled inflate getBody enabledDatatypes
            true errorJson key ext body dt status cas =
          some { status := status, key := key, ext := ext, payload := body,
                 datatype := enabledDatatypes dt, cas := cas }) := by
  intro snappyEnabled inflate getBody enabledDatatypes errorJson key ext
    body dt status cas
  constructor
  · rintro ⟨h1, h2, h3, h4, h5⟩ hinf
    have hfive : ¬(status = Status.Success ∨
        status = Status.SubdocSuccessDeleted ∨
        status = Status.SubdocMultiPathFailure ∨
        status = Status.NotMyVbucket ∨ status = Status.Rollback) := by
      rintro (h | h | h | h | h) <;> simp_all
    by_cases hsn : ¬snappyEnabled = true ∧ dt.snappy = true
    · obtain ⟨b, hb⟩ := hinf hsn
      simp only [mcbp_response_handler, if_pos hsn, hb]
      by_cases hx : ({ dt with snappy := false } : DatatypeBits).xattr = true
      · simp [hfive, hx]
      · simp only [Bool.not_eq_true] at hx
        simp [hfive, hx]
    · simp only [mcbp_response_handler, if_neg hsn]
      by_cases hx : dt.xattr = true
      · simp [hfive, hx]
      · simp only [Bool.not_eq_true] at hx
        simp [hfive, hx]
  · intro hfive hsn hx
    have hsn' : ¬(snappyEnabled = false ∧ dt.snappy = true) := by
      simpa using hsn
    simp [mcbp_response_handler, hsn', hx, hfive]

/-- C3 witness: an Einval response with error object bytes `[123]` is
replaced and marked JSON; a Success response with raw datatype keeps its
payload, key and extras. -/
theorem C3_error_object_replacement_witness :
    (mcbp_response_handler true (fun _ => none) (fun b => b) (fun d => d)
        true [123] [1] [2] [3] DatatypeBits.raw Status.Einval 42 =
      some { status := Status.Einval, key := [], ext := [], payload := [123],
             datatype := DatatypeBits.jsonOnly, cas := 42 }) ∧
    (mcbp_response_handler true (fun _ => none) (fun b => b) (fun d => d)
        true [123] [1] [2] [3] DatatypeBits.raw Status.Success 42 =
      some { status := Status.Success, key := [1], ext := [2],
             payload := [3], datatype := DatatypeBits.raw, cas := 42 }) := by
  constructor
  · have h := (C3_error_object_replacement true (fun _ => none) (fun b => b)
      (fun d => d) [123] [1] [2] [3] DatatypeBits.raw Status.Einval 42).1
      (by refine ⟨?_, ?_, ?_, ?_, ?_⟩ <;> decide)
      (fun hc => absurd rfl hc.1)
    simpa using h
  · have h := (C3_error_object_replacement true (fun _ => none) (fun b => b)
      (fun d => d) [123] [1] [2] [3] DatatypeBits.raw Status.Success 42).2
      (Or.inl rfl) (fun hc => absurd rfl hc.1) rfl
    simpa using h

/-- C4 counterexample: a known opcode whose opcode-specific validator
rejects the request with Einval (not a framing violation).  The source
(conn_validate) sends the response and then overrides the write-and-go with
`closing`, so the connection does not continue to the next command, contrary
to the claim that only framing violations set `writeAndGo = closing`. -/
theorem C4_counterexample :
    StateMachine.conn_validate false false
        ⟨ConnectionState.validate, ConnectionState.new_cmd, none⟩
        true true true Status.Einval =
      { state := ConnectionState.send_data,
        writeAndGo := ConnectionState.closing,
        response := some Status.Einval } ∧
    ConnectionState.closing ≠ ConnectionState.new_cmd := by
  exact ⟨by decide, by decide⟩

/-- C4 (amended): the first validation failure yields a response with the
appropriate error status; every failure reported by the packet validator
(framing or opcode-specific alike) sets `writeAndGo = closing`, while an
unknown-opcode failure sends UnknownCommand and the connection continues to
the next command (`writeAndGo = new_cmd`); a successful validation proceeds
to `execute`. -/
theorem C4_validate_failure_closes :
    ∀ (isDCP : Bool) (c : StateMachine.ValidateEffect)
      (validatorResult : Status),
      (validatorResult ≠ Status.Success →
        StateMachine.conn_validate isDCP false c true true true
            validatorResult =
          { state := StateMachine.setCurrentState isDCP c.state
              ConnectionState.send_data,
            writeAndGo := ConnectionState.closing,
            response := some validatorResult }) ∧
      (∀ vr : Status,
        StateMachine.conn_validate isDCP false c true true false vr =
          { state := StateMachine.setCurrentState isDCP c.state
              ConnectionState.send_data,
            writeAndGo := ConnectionState.new_cmd,
            response := some Status.UnknownCommand }) ∧
      (StateMachine.conn_validate isDCP false c true true true
          Status.Success =
        { c with
            state :=
              StateMachine.setCurrentState isDCP c.state
                ConnectionState.execute }) := by
  intro isDCP c validatorResult
  refine ⟨?_, ?_, ?_⟩
  · intro h
    simp [StateMachine.conn_validate, StateMachine.sendResponseStatus, h]
  · intro vr
    simp [StateMachine.conn_validate, StateMachine.sendResponseStatus]
  · simp [StateMachine.conn_validate]

/-- C4 witness: the Einval validator failure of the counterexample input,
via the amended theorem. -/
theorem C4_validate_failure_closes_witness :
    Status.Einval ≠ Status.Success ∧
    StateMachine.conn_validate false false
        ⟨ConnectionState.validate, ConnectionState.new_cmd, none⟩
        true true true Status.Einval =
      { state := ConnectionState.send_data,
        writeAndGo := ConnectionState.closing,
        response := some Status.Einval } :=
  ⟨by decide,
   (C4_validate_failure_closes false
      ⟨ConnectionState.validate, ConnectionState.new_cmd, none⟩
      Status.Einval).1 (by decide)⟩


/-- Helper: `appendChunks` places exactly the first `budget` chunks in the
buffer and succeeds iff the budget covers the whole list. -/
theorem appendChunks_spec :
    ∀ (l : List OutChunk) (b : Nat),
      (appendChunks b l).1 = l.take b ∧
      ((appendChunks b l).2 = true ↔ l.length ≤ b) := by
  intro l
  induction l with
  | nil =>
    intro b
    cases b <;> simp [appendChunks]
  | cons c rest ih =>
    intro b
    cases b with
    | zero => simp [appendChunks]
    | succ b =>
      refine ⟨?_, ?_⟩
      · simp [appendChunks, (ih b).1]
      · simpa [appendChunks, Nat.succ_le_succ_iff] using (ih b).2

/-- Helper: with sufficient budget every chunk is appended successfully. -/
theorem appendChunks_of_le (l : List OutChunk) (b : Nat)
    (h : l.length ≤ b) : appendChunks b l = (l, true) := by
  have h1 := (appendChunks_spec l b).1
  have h2 := (appendChunks_spec l b).2.2 h
  have hsplit : appendChunks b l =
      ((appendChunks b l).1, (appendChunks b l).2) := rfl
  rw [hsplit, h1, h2, List.take_of_length_le h]

/-- Helper: with insufficient budget the append fails (after placing a
partial prefix in the buffer). -/
theorem appendChunks_of_lt (l : List OutChunk) (b : Nat)
    (h : b < l.length) : (appendChunks b l).2 = false := by
  cases hv : (appendChunks b l).2
  · rfl
  · exact absurd ((appendChunks_spec l b).2.1 hv) (by omega)

/-- C5: a DCP mutation with a non-zero stream id emits the alt-client-request
magic, its framing extras (the first thing after the header) are one
DcpStreamId frame-info carrying the 2-byte stream id, the mutation extras
precede key, value and meta (in that order), the value is a zero-copy
chained segment (backing item released when transmitted), and when an append
fails the producer returns `disconnect` with only a partial message in the
buffer. -/
theorem C5_dcp_mutation_stream_id :
    ∀ (collectionsSupported : Bool) (stripCID : List Nat → List Nat)
      (key value meta : List Nat)
      (bySeqno revSeqno flags expiration lockTime nru vbucket cas dt sid
        budget : Nat),
      sid ≠ 0 → value ≠ [] →
      (dcpStreamIdFrameInfoBytes sid = [34, sid / 256 % 256, sid % 256]) ∧
      (6 ≤ budget →
        Connection.mutation collectionsSupported true stripCID key value meta
            bySeqno revSeqno flags expiration lockTime nru vbucket cas dt sid
            budget =
          (EngineErr.success,
           [OutChunk.header
              { magic := Magic.AltClientRequest,
                framingExtraslen := 3,
                extlen := 31,
                keylen := (if collectionsSupported then key
                  else stripCID key).length,
                bodylen := 31 + (if collectionsSupported then key
                  else stripCID key).length + meta.length + value.length + 3,
                vbucket := vbucket,
                cas := cas,
                datatype := dt },
            OutChunk.copied (dcpStreamIdFrameInfoBytes sid),
            OutChunk.copied (DcpMutationPayload.encode
              ⟨bySeqno, revSeqno, flags, expiration, lockTime, meta.length,
                nru⟩),
            OutChunk.copied (if collectionsSupported then key
              else stripCID key),
            OutChunk.chained value,
            OutChunk.copied meta])) ∧
      (budget < 6 →
        (Connection.mutation collectionsSupported true stripCID key value
            meta bySeqno revSeqno flags expiration lockTime nru vbucket cas
            dt sid budget).1 = EngineErr.disconnect) := by
  intro collectionsSupported stripCID key value meta bySeqno revSeqno flags
    expiration lockTime nru vbucket cas dt sid budget hsid hval
  refine ⟨rfl, ?_, ?_⟩
  · intro hb
    have happ := appendChunks_of_le
      ([OutChunk.header
          { magic := Magic.AltClientRequest,
            framingExtraslen := 3,
            extlen := 31,
            keylen := (if collectionsSupported then key
              else stripCID key).length,
            bodylen := 31 + (if collectionsSupported then key
              else stripCID key).length + meta.length + value.length + 3,
            vbucket := vbucket,
            cas := cas,
            datatype := dt },
        OutChunk.copied (dcpStreamIdFrameInfoBytes sid),
        OutChunk.copied (DcpMutationPayload.encode
          ⟨bySeqno, revSeqno, flags, expiration, lockTime, meta.length,
            nru⟩),
        OutChunk.copied (if collectionsSupported then key
          else stripCID key),
        OutChunk.chained value,
        OutChunk.copied meta]) budget (by simpa using hb)
    simp [Connection.mutation, hsid, hval, happ]
  · intro hb
    have hlt := appendChunks_of_lt
      ([OutChunk.header
          { magic := Magic.AltClientRequest,
            framingExtraslen := 3,
            extlen := 31,
            keylen := (if collectionsSupported then key
              else stripCID key).length,
            bodylen := 31 + (if collectionsSupported then key
              else stripCID key).length + meta.length + value.length + 3,
            vbucket := vbucket,
            cas := cas,
            datatype := dt },
        OutChunk.copied (dcpStreamIdFrameInfoBytes sid),
        OutChunk.copied (DcpMutationPayload.encode
          ⟨bySeqno, revSeqno, flags, expiration, lockTime, meta.length,
            nru⟩),
        OutChunk.copied (if collectionsSupported then key
          else stripCID key),
        OutChunk.chained value,
        OutChunk.copied meta]) budget (by simpa using hb)
    simp [Connection.mutation, hsid, hval, hlt]

/-- C5 witness: stream id 7, key byte 107, value byte 118, empty meta: the
emitted frame is alt-magic with framing extras `[0x22, 0x00, 0x07]` first,
extras before key before chained value before meta; with budget 2 the
partial append returns `disconnect`. -/
theorem C5_dcp_mutation_stream_id_witness :
    ((7 : Nat) ≠ 0) ∧ (([118] : List Nat) ≠ []) ∧
    Connection.mutation true true (fun k => k) [107] [118] []
        1 2 3 4 5 6 8 9 0 7 6 =
      (EngineErr.success,
       [OutChunk.header
          { magic := Magic.AltClientRequest, framingExtraslen := 3,
            extlen := 31, keylen := 1, bodylen := 36, vbucket := 8,
            cas := 9, datatype := 0 },
        OutChunk.copied [34, 0, 7],
        OutChunk.copied (DcpMutationPayload.encode ⟨1, 2, 3, 4, 5, 0, 6⟩),
        OutChunk.copied [107],
        OutChunk.chained [118],
        OutChunk.copied []]) ∧
    (Connection.mutation true true (fun k => k) [107] [118] []
        1 2 3 4 5 6 8 9 0 7 2).1 = EngineErr.disconnect := by
  have h := C5_dcp_mutation_stream_id true (fun k => k) [107] [118] []
    1 2 3 4 5 6 8 9 0 7 6 (by decide) (by decide)
  have h2 := C5_dcp_mutation_stream_id true (fun k => k) [107] [118] []
    1 2 3 4 5 6 8 9 0 7 2 (by decide) (by decide)
  refine ⟨by decide, by decide, ?_, h2.2.2 (by decide)⟩
  have h3 := h.2.1 (by decide)
  simpa using h3

/-- Helper: the subdoc retry loop makes at most 100 attempts. -/
theorem subdoc_loop_attempts_le (auto_retry : Bool)
    (step : Nat → AttemptStep) :
    ∀ k attempts, attempts ≤ 99 → 100 - attempts ≤ k →
      (subdoc_executor_loop auto_retry step attempts).attempts ≤ 100 := by
  intro k
  induction k with
  | zero =>
    intro attempts h hk
    omega
  | succ k ih =>
    intro attempts h hk
    rw [subdoc_executor_loop]
    cases hstep : step (attempts + 1) with
    | ctxAllocFail => simp [SubdocOutcome.attempts]; omega
    | fetchAbort => simp [SubdocOutcome.attempts]; omega
    | operateAbort => simp [SubdocOutcome.attempts]; omega
    | update ret =>
      dsimp only
      by_cases hex : ret = EngineErr.key_eexists
      · rw [if_pos hex]
        cases auto_retry with
        | false =>
          simp [SubdocOutcome.attempts]
          omega
        | true =>
          simp only [ite_true]
          by_cases hlt : attempts + 1 < 100
          · rw [dif_pos hlt]
            exact ih (attempts + 1) (by omega) (by omega)
          · rw [dif_neg hlt]
            simp [SubdocOutcome.attempts]
            omega
      · rw [if_neg hex]
        by_cases hsc : ret = EngineErr.success
        · rw [if_pos hsc]
          simp [SubdocOutcome.attempts]
          omega
        · rw [if_neg hsc]
          simp [SubdocOutcome.attempts]
          omega

/-- Helper: the subdoc retry loop makes at least one attempt beyond its
starting count. -/
theorem subdoc_loop_attempts_ge (auto_retry : Bool)
    (step : Nat → AttemptStep) :
    ∀ k attempts, 100 - attempts ≤ k →
      attempts + 1 ≤ (subdoc_executor_loop auto_retry step attempts).attempts := by
  intro k
  induction k with
  | zero =>
    intro attempts hk
    rw [subdoc_executor_loop]
    cases hstep : step (attempts + 1) with
    | ctxAllocFail => simp [SubdocOutcome.attempts]
    | fetchAbort => simp [SubdocOutcome.attempts]
    | operateAbort => simp [SubdocOutcome.attempts]
    | update ret =>
      dsimp only
      by_cases hex : ret = EngineErr.key_eexists
      · rw [if_pos hex]
        cases auto_retry with
        | false => simp [SubdocOutcome.attempts]
        | true =>
          simp only [ite_true]
          rw [dif_neg (by omega)]
          simp [SubdocOutcome.attempts]
      · rw [if_neg hex]
        by_cases hsc : ret = EngineErr.success
        · rw [if_pos hsc]
          simp [SubdocOutcome.attempts]
        · rw [if_neg hsc]
          simp [SubdocOutcome.attempts]
  | succ k ih =>
    intro attempts hk
    rw [subdoc_executor_loop]
    cases hstep : step (attempts + 1) with
    | ctxAllocFail => simp [SubdocOutcome.attempts]
    | fetchAbort => simp [SubdocOutcome.attempts]
    | operateAbort => simp [SubdocOutcome.attempts]
    | update ret =>
      dsimp only
      by_cases hex : ret = EngineErr.key_eexists
      · rw [if_pos hex]
        cases auto_retry with
        | false => simp [SubdocOutcome.attempts]
        | true =>
          simp only [ite_true]
          by_cases hlt : attempts + 1 < 100
          · rw [dif_pos hlt]
            have := ih (attempts + 1) (by omega)
            omega
          · rw [dif_neg hlt]
            simp [SubdocOutcome.attempts]
      · rw [if_neg hex]
        by_cases hsc : ret = EngineErr.success
        · rw [if_pos hsc]
          simp [SubdocOutcome.attempts]
        · rw [if_neg hsc]
          simp [SubdocOutcome.attempts]

/-- Helper: when every attempt up to the bound hits a CAS mismatch and
auto-retry is on, the loop exhausts the 100 attempts and sends Etmpfail. -/
theorem subdoc_loop_all_eexists (step : Nat → AttemptStep)
    (hstep : ∀ i, 1 ≤ i → i ≤ 100 →
      step i = AttemptStep.update EngineErr.key_eexists) :
    ∀ k attempts, attempts ≤ 99 → 100 - attempts ≤ k →
      subdoc_executor_loop true step attempts =
        SubdocOutcome.sent Status.Etmpfail 100 := by
  intro k
  induction k with
  | zero =>
    intro attempts h hk
    omega
  | succ k ih =>
    intro attempts h hk
    rw [subdoc_executor_loop]
    rw [hstep (attempts + 1) (by omega) (by omega)]
    simp only [ite_true, if_pos rfl]
    by_cases hlt : attempts + 1 < 100
    · rw [dif_pos hlt]
      exact ih (attempts + 1) (by omega) (by omega)
    · rw [dif_neg hlt]
      have h100 : attempts + 1 = 100 := by omega
      rw [h100]

/-- Helper: the append/prepend retry loop makes at most 100 attempts. -/
theorem appret_loop_attempts_le (retryable : Bool)
    (store : Nat → EngineErr) :
    ∀ k attempts, attempts ≤ 99 → 100 - attempts ≤ k →
      (appendPrependRetryLoop retryable store attempts).2 ≤ 100 := by
  intro k
  induction k with
  | zero =>
    intro attempts h hk
    omega
  | succ k ih =>
    intro attempts h hk
    rw [appendPrependRetryLoop]
    by_cases hc : store (attempts + 1) = EngineErr.key_eexists ∧
        retryable = true
    · rw [if_pos hc]
      by_cases hlt : attempts + 1 < 100
      · rw [dif_pos hlt]
        exact ih (attempts + 1) (by omega) (by omega)
      · rw [dif_neg hlt]
        omega
    · rw [if_neg hc]
      omega

/-- Helper: all-mismatch behaviour of the append/prepend retry loop. -/
theorem appret_loop_all_eexists (store : Nat → EngineErr)
    (hstore : ∀ i, 1 ≤ i → i ≤ 100 → store i = EngineErr.key_eexists) :
    ∀ k attempts, attempts ≤ 99 → 100 - attempts ≤ k →
      appendPrependRetryLoop true store attempts =
        (EngineErr.tmpfail, 100) := by
  intro k
  induction k with
  | zero =>
    intro attempts h hk
    omega
  | succ k ih =>
    intro attempts h hk
    rw [appendPrependRetryLoop]
    rw [if_pos ⟨hstore (attempts + 1) (by omega) (by omega), rfl⟩]
    by_cases hlt : attempts + 1 < 100
    · rw [dif_pos hlt]
      exact ih (attempts + 1) (by omega) (by omega)
    · rw [dif_neg hlt]
      have h100 : attempts + 1 = 100 := by omega
      rw [h100]

/-- C6: for the compare-and-set mutation contexts — the subdoc executor
(from the source) and the append/prepend context (modelled from the spec) —
with no client CAS a key-exists CAS mismatch resets and retries the
operation, at most 100 attempts are made, exhausting them surfaces TempFail,
and with a client-supplied CAS the mismatch is returned without retry. -/
theorem C6_cas_mismatch_retry :
    ∀ (cas : Nat) (step : Nat → AttemptStep) (store : Nat → EngineErr),
      ((subdoc_executor cas step).attempts ≤ 100) ∧
      (cas = 0 →
        (∀ i, 1 ≤ i → i ≤ 100 →
          step i = AttemptStep.update EngineErr.key_eexists) →
        subdoc_executor cas step = SubdocOutcome.sent Status.Etmpfail 100) ∧
      (cas ≠ 0 → step 1 = AttemptStep.update EngineErr.key_eexists →
        subdoc_executor cas step = SubdocOutcome.sent Status.KeyEexists 1) ∧
      (cas = 0 → step 1 = AttemptStep.update EngineErr.key_eexists →
        2 ≤ (subdoc_executor cas step).attempts) ∧
      ((appendPrependRetry cas store).2 ≤ 100) ∧
      (cas = 0 →
        (∀ i, 1 ≤ i → i ≤ 100 → store i = EngineErr.key_eexists) →
        appendPrependRetry cas store = (EngineErr.tmpfail, 100)) ∧
      (cas ≠ 0 → store 1 = EngineErr.key_eexists →
        appendPrependRetry cas store = (EngineErr.key_eexists, 1)) := by
  intro cas step store
  refine ⟨?_, ?_, ?_, ?_, ?_, ?_, ?_⟩
  · exact subdoc_loop_attempts_le (cas == 0) step 100 0 (by omega) (by omega)
  · intro hcas hstep
    have hbeq : (cas == 0) = true := by simp [hcas]
    unfold subdoc_executor
    rw [hbeq]
    exact subdoc_loop_all_eexists step hstep 100 0 (by omega) (by omega)
  · intro hcas hstep
    have hbeq : (cas == 0) = false := by simp [hcas]
    unfold subdoc_executor
    rw [hbeq]
    rw [subdoc_executor_loop]
    rw [hstep]
    simp
  · intro hcas hstep
    have hbeq : (cas == 0) = true := by simp [hcas]
    unfold subdoc_executor
    rw [hbeq]
    rw [subdoc_executor_loop]
    rw [hstep]
    simp only [ite_true, if_pos rfl]
    rw [dif_pos (by omega)]
    exact subdoc_loop_attempts_ge true step 100 1 (by omega)
  · exact appret_loop_attempts_le (cas == 0) store 100 0 (by omega) (by omega)
  · intro hcas hstore
    have hbeq : (cas == 0) = true := by simp [hcas]
    unfold appendPrependRetry
    rw [hbeq]
    exact appret_loop_all_eexists store hstore 100 0 (by omega) (by omega)
  · intro hcas hstore
    have hbeq : (cas == 0) = false := by simp [hcas]
    unfold appendPrependRetry
    rw [hbeq]
    rw [appendPrependRetryLoop]
    rw [if_neg (by simp [hstore])]
    rw [hstore]

/-- C6 witness: with cas 0 and a perpetually conflicting store, both
contexts give up after 100 attempts with TempFail; with cas 5 the mismatch
is surfaced on the first attempt. -/
theorem C6_cas_mismatch_retry_witness :
    ((0 : Nat) = 0) ∧ ((5 : Nat) ≠ 0) ∧
    subdoc_executor 0 (fun _ => AttemptStep.update EngineErr.key_eexists) =
      SubdocOutcome.sent Status.Etmpfail 100 ∧
    subdoc_executor 5 (fun _ => AttemptStep.update EngineErr.key_eexists) =
      SubdocOutcome.sent Status.KeyEexists 1 ∧
    appendPrependRetry 0 (fun _ => EngineErr.key_eexists) =
      (EngineErr.tmpfail, 100) ∧
    appendPrependRetry 5 (fun _ => EngineErr.key_eexists) =
      (EngineErr.key_eexists, 1) :=
  ⟨rfl, by decide,
   (C6_cas_mismatch_retry 0 (fun _ => AttemptStep.update EngineErr.key_eexists)
      (fun _ => EngineErr.key_eexists)).2.1 rfl (fun _ _ _ => rfl),
   (C6_cas_mismatch_retry 5 (fun _ => AttemptStep.update EngineErr.key_eexists)
      (fun _ => EngineErr.key_eexists)).2.2.1 (by decide) rfl,
   (C6_cas_mismatch_retry 0 (fun _ => AttemptStep.update EngineErr.key_eexists)
      (fun _ => EngineErr.key_eexists)).2.2.2.2.2.1 rfl (fun _ _ _ => rfl),
   (C6_cas_mismatch_retry 5 (fun _ => AttemptStep.update EngineErr.key_eexists)
      (fun _ => EngineErr.key_eexists)).2.2.2.2.2.2 (by decide) rfl⟩
